import Mathlib

/-!
Verification development for the pyguard-args argument-validation library.

The Python sources under `pyguard/` are shallowly embedded below:
  - Python values that flow through the validators become the inductive
    type `PyVal` (with `bool` a subtype of `int` for `isinstance`, as in
    CPython);
  - type annotations become `TypeHint` (a plain class, or a union with
    `None` covering both `Optional[T]` and `T | None`);
  - each validator class's `validate` method becomes a Lean function of
    the same name; a method that can raise an uncaught Python exception is
    given the return type `Except PyErr _`, while one whose body cannot
    raise returns `Option String` directly (`some msg` = failure message,
    `none` = value accepted);
  - the process-wide registry `Guard.__registered_validators__` becomes an
    explicit association list threaded through the registry operations;
  - the in-place mutation of the caller-supplied `guard_config` dictionary
    performed by `Guard.validate_arguments` (`guard.py` lines 61-70) is
    made observable by returning the post-call configuration.

Calls into the Python standard library (`re`, `uuid`, `ipaddress`,
`str.lower`, ...) are external to the repository; they are modelled by
executable Lean functions whose doc comments say exactly what is modelled.
No claim below depends on the fine behaviour of those models beyond what
their doc comments state.
-/

/-- Python classes that occur as type hints or `type` rule arguments in the
library's test-suite and examples: `int`, `str`, `bool`, `NoneType`,
`list`, `tuple`, `dict`. -/
inductive PyType where
  | intT
  | strT
  | boolT
  | noneT
  | listT
  | tupleT
  | dictT
deriving DecidableEq, Repr

/-- A static type annotation as consumed by `pyguard.utils.is_hint_optional`:
either a plain class, or a union with `NoneType` (covering both
`Optional[T]` / `Union[T, None]` and the 3.10 `T | None` sugar, which the
source treats identically). -/
inductive TypeHint where
  | plain (t : PyType)
  | unionNone (t : PyType)
deriving DecidableEq, Repr

/-- The universe of Python values the embedding manipulates: `None`,
booleans, integers, strings, lists, tuples, string-keyed dicts, and type
objects (classes or `Optional[...]` aliases, as stored by the `type` rule
injection). -/
inductive PyVal where
  | VNone
  | VBool (b : Bool)
  | VInt (n : Int)
  | VStr (s : String)
  | VList (xs : List PyVal)
  | VTup (xs : List PyVal)
  | VDict (kvs : List (String × PyVal))
  | VType (h : TypeHint)
deriving Repr

open PyVal

/-- Exceptions that can escape the library's code paths: the two exception
classes of `pyguard/exceptions.py`, plus raw Python faults
(`re.error`, `TypeError`, `ValueError`) that nothing in the source catches
at the point they arise. `guardValidation` carries the function name and
the argument-name-to-messages mapping of `GuardValidationError`. -/
inductive PyErr where
  | guardConfig (msg : String)
  | guardValidation (functionName : String) (errors : List (String × List String))
  | reError (msg : String)
  | typeErrorRaw (msg : String)
  | valueErrorRaw (msg : String)
deriving DecidableEq, Repr

/-- Name of a value's runtime class, as produced by
`type(value).__name__` in the failure messages. -/
def typeName : PyVal → String
  | VNone => "NoneType"
  | VBool _ => "bool"
  | VInt _ => "int"
  | VStr _ => "str"
  | VList _ => "list"
  | VTup _ => "tuple"
  | VDict _ => "dict"
  | VType _ => "type"

/-- Printed name of a class, as in CPython's `__name__`. -/
def typeNameT : PyType → String
  | .intT => "int"
  | .strT => "str"
  | .boolT => "bool"
  | .noneT => "NoneType"
  | .listT => "list"
  | .tupleT => "tuple"
  | .dictT => "dict"

/-- Rendering of a type object under `str()`, e.g. `<class 'int'>` for a
plain class and `typing.Optional[int]` for a union alias. -/
def hintRepr : TypeHint → String
  | .plain t => "<class '" ++ typeNameT t ++ "'>"
  | .unionNone t => "typing.Optional[" ++ typeNameT t ++ "]"

/-- Comma-and-space join used by Python's container `repr`. -/
def joinComma (l : List String) : String :=
  String.intercalate ", " l

mutual

/-- Python `repr()` of a value, as used for elements inside containers in
f-string interpolation. Strings are quoted with single quotes (none of the
strings in play contain quotes). -/
def reprOf : PyVal → String
  | VNone => "None"
  | VBool b => if b then "True" else "False"
  | VInt n => toString n
  | VStr s => "'" ++ s ++ "'"
  | VList xs => "[" ++ joinComma (reprOfList xs) ++ "]"
  | VTup xs =>
      "(" ++ joinComma (reprOfList xs) ++ (if xs.length == 1 then ",)" else ")")
  | VDict kvs => "\x7b" ++ joinComma (reprOfDict kvs) ++ "\x7d"
  | VType h => hintRepr h

/-- Rendering via `repr` of each element of a list of values. -/
def reprOfList : List PyVal → List String
  | [] => []
  | x :: xs => reprOf x :: reprOfList xs

/-- Rendering via `repr` of each `'key': value` entry of a dict. -/
def reprOfDict : List (String × PyVal) → List String
  | [] => []
  | (k, v) :: kvs => ("'" ++ k ++ "': " ++ reprOf v) :: reprOfDict kvs

end

/-- Python `str()` of a value, as substituted by an f-string `{value}`:
a string renders verbatim, everything else via `repr`-like rendering. -/
def strOf : PyVal → String
  | VStr s => s
  | v => reprOf v

/-- Rendering of `value.keys()` on a dict, as in the `keys`/`schema`
failure messages: `dict_keys(['a', 'b'])`. -/
def dictKeysRepr (kvs : List (String × PyVal)) : String :=
  "dict_keys([" ++ joinComma (kvs.map (fun kv => "'" ++ kv.1 ++ "'")) ++ "])"

/-- Numeric view of a value: Python compares `bool` as the integers 0/1
(`bool` is a subclass of `int`). -/
def pyNum? : PyVal → Option Int
  | VInt n => some n
  | VBool b => some (if b then 1 else 0)
  | _ => none

/-- Python's rich comparison between the values exercised by the library:
numbers compare numerically (bools as 0/1), strings lexicographically, and
every other pair raises `TypeError` (modelled as `none`). Container-to-
container comparisons never occur in the code paths under study. -/
def pyCmp (a b : PyVal) : Option Ordering :=
  match pyNum? a, pyNum? b with
  | some x, some y => some (compare x y)
  | _, _ =>
    match a, b with
    | VStr s, VStr t => some (compare s t)
    | _, _ => none

mutual

/-- Python `==` on the embedded values: numeric cross-type equality
(`1 == True`), structural equality on containers. Dict equality is
modelled order-sensitively (the library never compares dicts). -/
def pyEq : PyVal → PyVal → Bool
  | VNone, VNone => true
  | VBool a, VBool b => a == b
  | VBool a, VInt y => (if a then (1 : Int) else 0) == y
  | VInt x, VBool b => x == (if b then (1 : Int) else 0)
  | VInt x, VInt y => x == y
  | VStr s, VStr t => s == t
  | VList xs, VList ys => pyEqList xs ys
  | VTup xs, VTup ys => pyEqList xs ys
  | VDict xs, VDict ys => pyEqDict xs ys
  | _, _ => false

/-- Elementwise `==` on lists of values. -/
def pyEqList : List PyVal → List PyVal → Bool
  | [], [] => true
  | x :: xs, y :: ys => pyEq x y && pyEqList xs ys
  | _, _ => false

/-- Entrywise `==` on dict entry lists. -/
def pyEqDict : List (String × PyVal) → List (String × PyVal) → Bool
  | [], [] => true
  | (k, v) :: xs, (k', v') :: ys => k == k' && pyEq v v' && pyEqDict xs ys
  | _, _ => false

end

/-- Python `len()`: defined on strings, lists, tuples and dicts; raises
`TypeError` (modelled as `none`) on every other value. -/
def pyLen : PyVal → Option Nat
  | VStr s => some s.length
  | VList xs => some xs.length
  | VTup xs => some xs.length
  | VDict kvs => some kvs.length
  | _ => none

/-- Membership of a value in a Python class, i.e. `isinstance(v, t)` for a
plain class `t`. As in CPython, a `bool` is an instance of `int` because
`bool` subclasses `int`. -/
def isinstT : PyVal → PyType → Bool
  | VInt _, .intT => true
  | VBool _, .boolT => true
  | VBool _, .intT => true
  | VStr _, .strT => true
  | VNone, .noneT => true
  | VList _, .listT => true
  | VTup _, .tupleT => true
  | VDict _, .dictT => true
  | _, _ => false

/-- Membership test `isinstance(v, hint)`, where the hint may be a union with `NoneType`:
CPython ≥ 3.10 (the versions `setup.py` declares) accepts union aliases in
`isinstance`, and `None` is an instance of `Optional[T]`. -/
def isinst (v : PyVal) : TypeHint → Bool
  | .plain t => isinstT v t
  | .unionNone t =>
      (match v with
       | VNone => true
       | _ => false) || isinstT v t

/-- Structural prefix test on character lists (kernel-reducible stand-in
for `String.isPrefixOf`). -/
def listPrefix : List Char → List Char → Bool
  | [], _ => true
  | _ :: _, [] => false
  | c :: cs, d :: ds => c == d && listPrefix cs ds

/-- Structural infix (substring-occurrence) test on character lists. -/
def listInfix (sub : List Char) : List Char → Bool
  | [] => sub.isEmpty
  | c :: cs => listPrefix sub (c :: cs) || listInfix sub cs

/-- Structural split on a separator character, mirroring
`String.splitOn` with a one-character separator: always returns at least
one (possibly empty) piece. -/
def splitOnChar (sep : Char) : List Char → List (List Char)
  | [] => [[]]
  | c :: cs =>
      let rest := splitOnChar sep cs
      if c == sep then [] :: rest
      else
        match rest with
        | [] => [[c]]
        | g :: gs => (c :: g) :: gs

/-- Decimal value of a digit list (kernel-reducible stand-in for
`String.toNat!` on all-digit strings). -/
def digitsToNat (cs : List Char) : Nat :=
  cs.foldl (fun acc c => acc * 10 + (c.toNat - 48)) 0

/-- Hexadecimal digit test. -/
def isHexDigit (ch : Char) : Bool :=
  ch.isDigit || ('a' ≤ ch && ch ≤ 'f') || ('A' ≤ ch && ch ≤ 'F')

/-- Substring test `sub in s` on strings. Modelled from the Python `in`
operator via `String.splitOn`: the separator occurs iff splitting on it
yields more than one piece (the empty string is in every string). -/
def strContains (s sub : String) : Bool :=
  listInfix sub.data s.data

/-- Translation of `pyguard.utils.is_hint_optional`: true exactly when the
annotation is a union containing `NoneType` (either the `typing.Union`
form or the 3.10 `X | None` form — both are the `unionNone` constructor
here). -/
def is_hint_optional : TypeHint → Bool
  | .plain _ => false
  | .unionNone _ => true

/-- Modelled from the Python standard library: success of
`re.compile(pattern)` on the patterns the development exercises. The model
accepts a pattern iff its character classes are terminated and its groups
are balanced; in particular the malformed pattern `"["` (CPython:
`re.error: unterminated character set`) is rejected. -/
def reCompileOk (pattern : String) : Bool :=
  let step : (Bool × Int) → Char → (Bool × Int) :=
    fun st c =>
      let inClass := st.1
      let depth := st.2
      if inClass then
        if c = ']' then (false, depth) else (true, depth)
      else if c = '[' then (true, depth)
      else if c = '(' then (false, depth + 1)
      else if c = ')' then (false, depth - 1)
      else (false, depth)
  let final := pattern.toList.foldl step (false, 0)
  decide (final.1 = false) && decide (final.2 = 0)

/-- Modelled from the Python standard library: `re.Pattern.match` (an
anchored-at-start match) for the literal, metacharacter-free patterns the
development evaluates it on. No claim below depends on its value for
patterns containing metacharacters. -/
def reMatch (pattern s : String) : Bool :=
  listPrefix pattern.data s.data

/-- Modelled from the Python standard library: a match of the library's
fixed email pattern `^[a-zA-Z0-9._%+-]+@[a-zA-Z0-9.-]+\.[a-zA-Z]\x7b2,\x7d$`
(`validators/strings.py` line 58): a non-empty local part of allowed
characters, an `@`, and a domain ending in a dot followed by at least two
letters. -/
def emailOk (s : String) : Bool :=
  let localOk : Char → Bool := fun c =>
    c.isAlphanum || c = '.' || c = '_' || c = '%' || c = '+' || c = '-'
  let domainOk : Char → Bool := fun c => c.isAlphanum || c = '-'
  match splitOnChar '@' s.data with
  | [localPart, domain] =>
      !localPart.isEmpty && localPart.all localOk &&
      (match (splitOnChar '.' domain).reverse with
       | tld :: rest :: more =>
           tld.length ≥ 2 && tld.all Char.isAlpha &&
           (rest :: more).all (fun piece => piece.all domainOk)
       | _ => false)
  | _ => false

/-- Modelled from the Python standard library: a match of the library's
fixed URL pattern `^(https?|ftp)://[^\s/$.?#].[^\s]*$`
(`validators/strings.py` line 75, compiled case-insensitively): a scheme,
`://`, a first character outside `\s/$.?#`, and at least one more
whitespace-free character. -/
def urlOk (s : String) : Bool :=
  let lower := s.data.map Char.toLower
  let afterScheme : Option (List Char) :=
    if listPrefix "http://".data lower then some (s.data.drop 7)
    else if listPrefix "https://".data lower then some (s.data.drop 8)
    else if listPrefix "ftp://".data lower then some (s.data.drop 6)
    else none
  match afterScheme with
  | none => false
  | some rest =>
    match rest with
    | c :: d :: tail =>
        !(c.isWhitespace || c = '/' || c = '$' || c = '.' || c = '?' || c = '#') &&
        !d.isWhitespace && tail.all (fun e => !e.isWhitespace)
    | _ => false

/-- Modelled from the Python standard library: acceptance of a string by
`uuid.UUID(s, version=v)`. Note that in CPython passing `version=` sets
the version bits of the constructed UUID rather than checking them, so
validity does not depend on the requested version; the model accepts the
canonical 8-4-4-4-12 hex-digit layout. -/
def uuidOk (s : String) (_version : Nat) : Bool :=
  match splitOnChar '-' s.data with
  | [a, b, c, d, e] =>
      a.length = 8 && b.length = 4 && c.length = 4 && d.length = 4 &&
      e.length = 12 && (a ++ b ++ c ++ d ++ e).all isHexDigit
  | _ => false

/-- Modelled from the Python standard library: acceptance of a string as
an IPv4 address by `ipaddress.ip_address` (four dot-separated decimal
octets in 0..255, no leading zeros). -/
def ipv4Ok (s : String) : Bool :=
  match splitOnChar '.' s.data with
  | [a, b, c, d] =>
      [a, b, c, d].all (fun oct =>
        !oct.isEmpty && oct.all Char.isDigit &&
        (oct = ['0'] || oct.head? != some '0') &&
        oct.length ≤ 3 && digitsToNat oct ≤ 255)
  | _ => false

/-- Modelled from the Python standard library: acceptance of a string as
an IPv6 address by `ipaddress.ip_address`, approximated as colon-separated
hex groups (liberally, including `::` compression); no claim depends on
its fine behaviour. -/
def ipv6Ok (s : String) : Bool :=
  let groups := splitOnChar ':' s.data
  s.data.any (fun c => c = ':') &&
  groups.length ≤ 8 &&
  groups.all (fun g => g.length ≤ 4 && g.all isHexDigit) &&
  (groups.all (fun g => !g.isEmpty) || listInfix [':', ':'] s.data)

/-- Translation of `GreaterThan.validate` (`validators/comparisons.py`
lines 6-13): fails when `value <= expected`; an incomparable pair raises
`TypeError`, which the method catches and converts to a message. -/
def GreaterThan.validate (name : String) (expected value : PyVal) : Option String :=
  match pyCmp value expected with
  | none => some (name ++ " is not comparable (expected numeric type), got " ++ typeName value)
  | some .gt => none
  | some _ => some (name ++ " must be greater than " ++ strOf expected ++ ", got " ++ strOf value)

/-- Translation of `GreaterThanOrEqual.validate` (`validators/comparisons.py`
lines 16-23): fails when `value < expected`; an incomparable pair is
converted to a message. -/
def GreaterThanOrEqual.validate (name : String) (expected value : PyVal) : Option String :=
  match pyCmp value expected with
  | none => some (name ++ " is not comparable (expected numeric type), got " ++ typeName value)
  | some .lt => some (name ++ " must be greater than or equal " ++ strOf expected ++ ", got " ++ strOf value)
  | some _ => none

/-- Translation of `LessThan.validate` (`validators/comparisons.py`
lines 26-33): fails when `value >= expected`. -/
def LessThan.validate (name : String) (expected value : PyVal) : Option String :=
  match pyCmp value expected with
  | none => some (name ++ " is not comparable (expected numeric type), got " ++ typeName value)
  | some .lt => none
  | some _ => some (name ++ " must be less than " ++ strOf expected ++ ", got " ++ strOf value)

/-- Translation of `LessThanOrEqual.validate` (`validators/comparisons.py`
lines 36-43): fails when `value > expected`. -/
def LessThanOrEqual.validate (name : String) (expected value : PyVal) : Option String :=
  match pyCmp value expected with
  | none => some (name ++ " is not comparable (expected numeric type), got " ++ typeName value)
  | some .gt => some (name ++ " must be less than or equal " ++ strOf expected ++ ", got " ++ strOf value)
  | some _ => none

/-- Translation of `ChoicesValidator.validate` (`validators/collections.py`
lines 7-15). The embedding has no enumeration classes, so the
`issubclass(expected, Enum)` branch is never taken: a type object as
`expected` falls through to `value not in expected`, which raises
`TypeError` (a class is not iterable), as does any other non-container. -/
def ChoicesValidator.validate (name : String) (expected value : PyVal) :
    Except PyErr (Option String) :=
  let failMsg := name ++ " must be in " ++ strOf expected ++ ", got " ++ strOf value
  match expected with
  | VList xs => .ok (if xs.any (pyEq value) then none else some failMsg)
  | VTup xs => .ok (if xs.any (pyEq value) then none else some failMsg)
  | VStr s =>
      (match value with
       | VStr sub => .ok (if strContains s sub then none else some failMsg)
       | _ => .error (.typeErrorRaw "'in <string>' requires string as left operand"))
  | VDict kvs =>
      .ok (match value with
           | VStr k => if kvs.any (fun kv => kv.1 == k) then none else some failMsg
           | _ => some failMsg)
  | _ => .error (.typeErrorRaw ("argument of type '" ++ typeName expected ++ "' is not iterable"))

/-- Translation of `TypeValidator.validate` (`validators/types.py`
lines 6-10): an `isinstance` check against the configured class or union
alias; `isinstance` with a non-type second argument raises `TypeError`. -/
def TypeValidator.validate (name : String) (expected value : PyVal) :
    Except PyErr (Option String) :=
  match expected with
  | VType h =>
      .ok (if isinst value h then none
           else some (name ++ " must be of type " ++ strOf expected ++ ", got " ++ typeName value))
  | _ => .error (.typeErrorRaw "isinstance() arg 2 must be a type, a tuple of types, or a union")

/-- Translation of `RequiredValidator.validate` (`validators/types.py`
lines 13-17): fails exactly when the value is `None`; the configured
`expected` flag is never consulted by the method body. -/
def RequiredValidator.validate (name : String) (value : PyVal) : Option String :=
  match value with
  | VNone => some (name ++ " is required argument")
  | _ => none

/-- Translation of `RequiredKeyValidator.validate`
(`validators/collections.py` lines 18-25): the value must be a dict
containing every configured key; a non-dict value is its own message.
Iterating a non-iterable `expected` raises `TypeError`. -/
def RequiredKeyValidator.validate (name : String) (expected value : PyVal) :
    Except PyErr (Option String) :=
  match value with
  | VDict kvs =>
      let keyIn : PyVal → Bool := fun k =>
        match k with
        | VStr s => kvs.any (fun kv => kv.1 == s)
        | _ => false
      let missingMsg := name ++ " must contain key: " ++ strOf expected ++ ", got " ++ dictKeysRepr kvs
      (match expected with
       | VList keys => .ok (if keys.all keyIn then none else some missingMsg)
       | VTup keys => .ok (if keys.all keyIn then none else some missingMsg)
       | VStr s =>
           .ok (if s.toList.all (fun c => kvs.any (fun kv => kv.1 == String.singleton c))
                then none else some missingMsg)
       | _ => .error (.typeErrorRaw ("'" ++ typeName expected ++ "' object is not iterable")))
  | _ => .ok (some (name ++ " must be a dictionary, got " ++ typeName value))

/-- Helper for `SchemaValidator.validate`: the `for key, expected_type in
self.expected.items()` loop, returning the first failing key's message. -/
def schemaLoop (name : String) (kvs : List (String × PyVal)) :
    List (String × PyVal) → Except PyErr (Option String)
  | [] => .ok none
  | (key, expType) :: rest =>
      match (kvs.find? (fun kv => kv.1 == key)).map Prod.snd with
      | none => .ok (some (name ++ " must contain key: " ++ key ++ ", got " ++ dictKeysRepr kvs))
      | some v =>
          match expType with
          | VType h =>
              if isinst v h then schemaLoop name kvs rest
              else .ok (some (name ++ "." ++ key ++ " must be of type " ++ strOf expType ++ ", got " ++ typeName v))
          | _ => .error (.typeErrorRaw "isinstance() arg 2 must be a type, a tuple of types, or a union")

/-- Translation of `SchemaValidator.validate` (`validators/collections.py`
lines 33-43): a non-dict value is a single dedicated message; otherwise
each schema key must be present and of the stated type, first failure
wins. Calling `.items()` on a non-dict `expected` raises (AttributeError
in CPython, folded into the raw-fault constructor here). -/
def SchemaValidator.validate (name : String) (expected value : PyVal) :
    Except PyErr (Option String) :=
  match value with
  | VDict kvs =>
      (match expected with
       | VDict schema => schemaLoop name kvs schema
       | _ => .error (.typeErrorRaw ("'" ++ typeName expected ++ "' object has no attribute 'items'")))
  | _ => .ok (some (name ++ " must be a dictionary, got " ++ typeName value))

/-- Translation of `LengthValidator.validate` (`validators/collections.py`
lines 47-57). The body first unpacks `min_length, max_length =
self.expected` (a non-pair raises out of the method); inside the `try`,
`len(value)` and both bound comparisons can raise `TypeError`, which the
`except` converts into the dedicated length-check message. A bound equal
to `None` is skipped. -/
def LengthValidator.validate (name : String) (expected value : PyVal) :
    Except PyErr (Option String) :=
  let lenFail := "Type of " ++ strOf value ++ " does not support length check"
  let unpacked : Except PyErr (PyVal × PyVal) :=
    match expected with
    | VTup [mn, mx] => .ok (mn, mx)
    | VList [mn, mx] => .ok (mn, mx)
    | VTup xs => .error (.valueErrorRaw ("expected 2 values to unpack, got " ++ toString xs.length))
    | VList xs => .error (.valueErrorRaw ("expected 2 values to unpack, got " ++ toString xs.length))
    | _ => .error (.typeErrorRaw ("cannot unpack non-iterable " ++ typeName expected ++ " object"))
  match unpacked with
  | .error e => .error e
  | .ok (mn, mx) =>
      .ok (match pyLen value with
        | none => some lenFail
        | some len =>
          let maxCheck : Option String :=
            match mx with
            | VNone => none
            | _ =>
              match pyCmp (VInt len) mx with
              | none => some lenFail
              | some .gt => some (name ++ " must be at most " ++ strOf mx ++ " characters long, got " ++ toString len)
              | some _ => none
          match mn with
          | VNone => maxCheck
          | _ =>
            match pyCmp (VInt len) mn with
            | none => some lenFail
            | some .lt => some (name ++ " must be at least " ++ strOf mn ++ " characters long, got " ++ toString len)
            | some _ => maxCheck)

/-- Translation of `RegexValidator.validate` (`validators/strings.py`
lines 41-52) for an already-compiled pattern: a non-string value is its
own message, otherwise the compiled pattern is matched against the value.
The method's `except re.error` arm is unreachable because matching a
compiled pattern does not raise `re.error` — compilation happened in
`__init__` (see `RegexValidator.compile`). -/
def RegexValidator.validate (name : String) (pattern : String) (value : PyVal) : Option String :=
  match value with
  | VStr s =>
      if reMatch pattern s then none
      else some (name ++ " must match pattern '" ++ pattern ++ "', got " ++ s)
  | _ => some (name ++ " must be a string, got " ++ typeName value)

/-- Translation of `EmailValidator.validate` (`validators/strings.py`
lines 60-69): non-strings are rejected with the string message, strings
are matched against the fixed email pattern compiled in `__init__`. -/
def EmailValidator.validate (name : String) (value : PyVal) : Option String :=
  match value with
  | VStr s =>
      if emailOk s then none
      else some (name ++ " must be a valid email address, got " ++ s)
  | _ => some (name ++ " must be a string, got " ++ typeName value)

/-- Translation of `URLValidator.validate` (`validators/strings.py`
lines 77-86): non-strings are rejected with the string message, strings
are matched against the fixed URL pattern compiled in `__init__`. -/
def URLValidator.validate (name : String) (value : PyVal) : Option String :=
  match value with
  | VStr s =>
      if urlOk s then none
      else some (name ++ " must be a valid URL, got " ++ s)
  | _ => some (name ++ " must be a string, got " ++ typeName value)

/-- Translation of `StartsWithValidator.validate` (`validators/strings.py`
lines 9-15): the value must be a string starting with the configured
text; `str.startswith` with a non-string, non-tuple argument raises
`TypeError`. -/
def StartsWithValidator.validate (name : String) (expected value : PyVal) :
    Except PyErr (Option String) :=
  match value with
  | VStr s =>
      (match expected with
       | VStr p => .ok (if listPrefix p.data s.data then none
                        else some (name ++ " must start with " ++ p ++ ", got " ++ s))
       | VTup ps =>
           if ps.all (fun p => match p with | VStr _ => true | _ => false) then
             .ok (if ps.any (fun p => match p with | VStr q => listPrefix q.data s.data | _ => false) then none
                  else some (name ++ " must start with " ++ strOf expected ++ ", got " ++ s))
           else .error (.typeErrorRaw "tuple for startswith must only contain str")
       | _ => .error (.typeErrorRaw ("startswith first arg must be str or a tuple of str, not " ++ typeName expected)))
  | _ => .ok (some (name ++ " must be a string, got " ++ typeName value))

/-- Translation of `EndsWithValidator.validate` (`validators/strings.py`
lines 18-24), the mirror image of `StartsWithValidator.validate`. -/
def EndsWithValidator.validate (name : String) (expected value : PyVal) :
    Except PyErr (Option String) :=
  match value with
  | VStr s =>
      (match expected with
       | VStr p => .ok (if listPrefix p.data.reverse s.data.reverse then none
                        else some (name ++ " must end with " ++ p ++ ", got " ++ s))
       | VTup ps =>
           if ps.all (fun p => match p with | VStr _ => true | _ => false) then
             .ok (if ps.any (fun p => match p with | VStr q => listPrefix q.data.reverse s.data.reverse | _ => false) then none
                  else some (name ++ " must end with " ++ strOf expected ++ ", got " ++ s))
           else .error (.typeErrorRaw "tuple for endswith must only contain str")
       | _ => .error (.typeErrorRaw ("endswith first arg must be str or a tuple of str, not " ++ typeName expected)))
  | _ => .ok (some (name ++ " must be a string, got " ++ typeName value))

/-- Translation of `ContainsValidator.validate` (`validators/strings.py`
lines 27-33): the value must be a string containing the configured
substring; `sub in s` with a non-string `sub` raises `TypeError`. -/
def ContainsValidator.validate (name : String) (expected value : PyVal) :
    Except PyErr (Option String) :=
  match value with
  | VStr s =>
      (match expected with
       | VStr sub => .ok (if strContains s sub then none
                          else some (name ++ " must contain " ++ sub ++ ", got " ++ s))
       | _ => .error (.typeErrorRaw "'in <string>' requires string as left operand"))
  | _ => .ok (some (name ++ " must be a string, got " ++ typeName value))

/-- Translation of `UUIDValidator.__init__`'s version resolution
(`validators/strings.py` line 98): `SUPPORTED_VERSIONS.get(expected, 4)`.
An unhashable `expected` (list or dict) raises `TypeError` out of the
dict lookup; every hashable value other than `'uuid5'` resolves to the
default version 4. -/
def UUIDValidator.resolveVersion (expected : PyVal) : Except PyErr Nat :=
  match expected with
  | VStr s => .ok (if s = "uuid5" then 5 else 4)
  | VList _ => .error (.typeErrorRaw "unhashable type: 'list'")
  | VDict _ => .error (.typeErrorRaw "unhashable type: 'dict'")
  | _ => .ok 4

/-- Translation of `UUIDValidator.validate` (`validators/strings.py`
lines 100-110): a non-string value passes only if it is already a UUID
object (the embedding has no UUID-typed values, so every non-string is
rejected here); a string must parse as a UUID. -/
def UUIDValidator.validate (name : String) (version : Nat) (value : PyVal) : Option String :=
  match value with
  | VStr s =>
      if uuidOk s version then none
      else some (name ++ " must be a valid UUID, got " ++ s)
  | _ => some (name ++ " must be a string, got " ++ typeName value)

/-- Translation of `IPAddressValidator.validate` (`validators/strings.py`
lines 116-128): the string must parse as an IP address, and when
`expected` requests a family (`'ipv4'`/`'ipv6'`) the parsed version must
match it. -/
def IPAddressValidator.validate (name : String) (expected value : PyVal) : Option String :=
  match value with
  | VStr s =>
      if ipv4Ok s then
        (match expected with
         | VStr e => if e = "ipv6" then some (name ++ " must be a valid IPv6 address, got " ++ s) else none
         | _ => none)
      else if ipv6Ok s then
        (match expected with
         | VStr e => if e = "ipv4" then some (name ++ " must be a valid IPv4 address, got " ++ s) else none
         | _ => none)
      else some (name ++ " must be a valid IP address, got " ++ s)
  | _ => some (name ++ " must be a string, got " ++ typeName value)

/-- Translation of `LowercaseValidator.validate` (`validators/strings.py`
lines 134-139): the string must equal its own `lower()` form
(`Char.toLower` models `str.lower` on the ASCII strings exercised). -/
def LowercaseValidator.validate (name : String) (value : PyVal) : Option String :=
  match value with
  | VStr s =>
      if s.data = s.data.map Char.toLower then none
      else some (name ++ " must be lowercase, got " ++ s)
  | _ => some (name ++ " must be a string, got " ++ typeName value)

/-- Translation of `UppercaseValidator.validate` (`validators/strings.py`
lines 144-150): the string must equal its own `upper()` form. -/
def UppercaseValidator.validate (name : String) (value : PyVal) : Option String :=
  match value with
  | VStr s =>
      if s.data = s.data.map Char.toUpper then none
      else some (name ++ " must be uppercase, got " ++ s)
  | _ => some (name ++ " must be a string, got " ++ typeName value)

/-- The validator classes exported by `pyguard/validators/__init__.py`,
one constructor per class. A registry entry stores such a class. -/
inductive ValidatorKind where
  | lessThan
  | lessThanOrEqual
  | greaterThan
  | greaterThanOrEqual
  | choicesV
  | typeV
  | requiredV
  | requiredKeyV
  | schemaV
  | lengthV
  | regexV
  | emailV
  | urlV
  | startsWithV
  | endsWithV
  | containsV
  | uuidV
  | ipV
  | lowercaseV
  | uppercaseV
deriving DecidableEq, Repr

/-- The process-wide `Guard.__registered_validators__` dict: keyword to
validator class, in registration order. -/
abbrev Registry := List (String × ValidatorKind)

/-- Per-argument rule configuration: rule keyword to `expected` value, in
insertion order (a Python dict). -/
abbrev ArgConfig := List (String × PyVal)

/-- The caller-supplied `guard_config`: argument name to its rule
configuration dict. -/
abbrev GuardConfig := List (String × ArgConfig)

/-- Type hints mapping, argument name to annotation. -/
abbrev Hints := List (String × TypeHint)

/-- Translation of `bound.arguments`: the ordered mapping from parameter name to the
supplied value, defaults already applied. -/
abbrev Bound := List (String × PyVal)

/-- Dict lookup `d.get(k)` on an ordered association list. -/
def assocGet {α : Type} (d : List (String × α)) (k : String) : Option α :=
  (d.find? (fun kv => kv.1 == k)).map Prod.snd

/-- Dict item assignment `d[k] = v`: an existing key keeps its insertion
position and has its value replaced; a new key is appended at the end. -/
def assocSet {α : Type} (d : List (String × α)) (k : String) (v : α) : List (String × α) :=
  if d.any (fun kv => kv.1 == k) then
    d.map (fun kv => if kv.1 == k then (k, v) else kv)
  else d ++ [(k, v)]

/-- Translation of `Guard.register_validator` (`guard.py` lines 15-27):
adding a keyword that is already present raises
`GuardConfigurationException` and performs no assignment; otherwise the
class is appended under the keyword. -/
def register_validator (reg : Registry) (keyword : String) (v : ValidatorKind) :
    Except PyErr Registry :=
  if (assocGet reg keyword).isSome then
    .error (.guardConfig (keyword ++ " is already registered"))
  else .ok (reg ++ [(keyword, v)])

/-- Translation of `Guard.get_validator` (`guard.py` lines 29-34): an
absent keyword raises `GuardConfigurationException` (a class object is
always truthy, so `if not validator` fires exactly on absence). -/
def get_validator (reg : Registry) (keyword : String) : Except PyErr ValidatorKind :=
  match assocGet reg keyword with
  | some v => .ok v
  | none => .error (.guardConfig ("Validator " ++ keyword ++ " is not registered"))

/-- Translation of `register_default_validators` (`guard.py` lines 79-95),
run once at import time against the initially empty registry: thirteen
sequential registrations. The string-extra validators (`startswith`,
`endswith`, `contains`, `uuid`, `ip`, `lowercase`, `uppercase`) exist as
classes and are exported, but no call registers them. -/
def register_default_validators (reg : Registry) : Except PyErr Registry :=
  (register_validator reg "lt" .lessThan).bind fun reg =>
  (register_validator reg "lte" .lessThanOrEqual).bind fun reg =>
  (register_validator reg "gt" .greaterThan).bind fun reg =>
  (register_validator reg "gte" .greaterThanOrEqual).bind fun reg =>
  (register_validator reg "choices" .choicesV).bind fun reg =>
  (register_validator reg "type" .typeV).bind fun reg =>
  (register_validator reg "required" .requiredV).bind fun reg =>
  (register_validator reg "keys" .requiredKeyV).bind fun reg =>
  (register_validator reg "schema" .schemaV).bind fun reg =>
  (register_validator reg "length" .lengthV).bind fun reg =>
  (register_validator reg "regex" .regexV).bind fun reg =>
  (register_validator reg "email" .emailV).bind fun reg =>
  register_validator reg "url" .urlV

/-- The registry contents after module import (`register_default_validators()`
at `guard.py` line 98): exactly the thirteen registered keywords, in
registration order. -/
def defaultRegistry : Registry :=
  [("lt", .lessThan), ("lte", .lessThanOrEqual), ("gt", .greaterThan),
   ("gte", .greaterThanOrEqual), ("choices", .choicesV), ("type", .typeV),
   ("required", .requiredV), ("keys", .requiredKeyV), ("schema", .schemaV),
   ("length", .lengthV), ("regex", .regexV), ("email", .emailV), ("url", .urlV)]

/-- A constructed validator instance: the class, the argument name and the
`expected` configuration value stored by `Validator.__init__`
(`validators/base.py` lines 15-17; the `bound` keyword argument passed by
the engine is dropped by `kwargs.get`). -/
structure Inst where
  kind : ValidatorKind
  name : String
  expected : PyVal

/-- Instantiation `validator_class(name=..., expected=..., bound=...)`
(`guard.py` line 49). Most classes only store their arguments, but
`RegexValidator.__init__` runs `re.compile(self.expected)` — a malformed
pattern raises `re.error` right here, outside any handler — and
`UUIDValidator.__init__` resolves the requested version. `EmailValidator`
and `URLValidator` compile fixed, well-formed literals, which cannot
fail. -/
def constructValidator (vk : ValidatorKind) (name : String) (expected : PyVal) :
    Except PyErr Inst :=
  match vk with
  | .regexV =>
      (match expected with
       | VStr p =>
           if reCompileOk p then .ok ⟨vk, name, expected⟩
           else .error (.reError ("unterminated character set or unbalanced pattern: " ++ p))
       | _ => .error (.typeErrorRaw ("first argument must be string or compiled pattern, not " ++ typeName expected)))
  | .uuidV =>
      (match UUIDValidator.resolveVersion expected with
       | .error e => .error e
       | .ok _ => .ok ⟨vk, name, expected⟩)
  | _ => .ok ⟨vk, name, expected⟩

/-- Dispatch of `validator.validate(value)` on a constructed instance to
the class translations above. -/
def instValidate (inst : Inst) (value : PyVal) : Except PyErr (Option String) :=
  match inst.kind with
  | .lessThan => .ok (LessThan.validate inst.name inst.expected value)
  | .lessThanOrEqual => .ok (LessThanOrEqual.validate inst.name inst.expected value)
  | .greaterThan => .ok (GreaterThan.validate inst.name inst.expected value)
  | .greaterThanOrEqual => .ok (GreaterThanOrEqual.validate inst.name inst.expected value)
  | .choicesV => ChoicesValidator.validate inst.name inst.expected value
  | .typeV => TypeValidator.validate inst.name inst.expected value
  | .requiredV => .ok (RequiredValidator.validate inst.name value)
  | .requiredKeyV => RequiredKeyValidator.validate inst.name inst.expected value
  | .schemaV => SchemaValidator.validate inst.name inst.expected value
  | .lengthV => LengthValidator.validate inst.name inst.expected value
  | .regexV =>
      (match inst.expected with
       | VStr p => .ok (RegexValidator.validate inst.name p value)
       | _ => .error (.typeErrorRaw "regex instance without a string pattern"))
  | .emailV => .ok (EmailValidator.validate inst.name value)
  | .urlV => .ok (URLValidator.validate inst.name value)
  | .startsWithV => StartsWithValidator.validate inst.name inst.expected value
  | .endsWithV => EndsWithValidator.validate inst.name inst.expected value
  | .containsV => ContainsValidator.validate inst.name inst.expected value
  | .uuidV =>
      (match UUIDValidator.resolveVersion inst.expected with
       | .error e => .error e
       | .ok v => .ok (UUIDValidator.validate inst.name v value))
  | .ipV => .ok (IPAddressValidator.validate inst.name inst.expected value)
  | .lowercaseV => .ok (LowercaseValidator.validate inst.name value)
  | .uppercaseV => .ok (UppercaseValidator.validate inst.name value)

/-- One iteration of the `Guard._validate_argument` rule loop (`guard.py`
lines 46-52): resolve the keyword in the registry, instantiate the class,
run `validate`. Each step's exception propagates uncaught. -/
def ruleMsg (reg : Registry) (argument : String) (value : PyVal)
    (rule : String) (expected : PyVal) : Except PyErr (Option String) :=
  match get_validator reg rule with
  | .error e => .error e
  | .ok vk =>
      match constructValidator vk argument expected with
      | .error e => .error e
      | .ok inst => instValidate inst value

/-- Translation of `Guard._validate_argument` (`guard.py` lines 36-53):
every configured rule is evaluated in configuration order, and each
non-empty message is appended to the argument's error list — no
short-circuiting on failure. -/
def validateArgumentLoop (reg : Registry) (argument : String) (value : PyVal) :
    List (String × PyVal) → Except PyErr (List String)
  | [] => .ok []
  | (rule, expected) :: rest =>
      match ruleMsg reg argument value rule expected with
      | .error e => .error e
      | .ok msg? =>
          match validateArgumentLoop reg argument value rest with
          | .error e => .error e
          | .ok errs =>
              .ok (match msg? with
                   | some m => m :: errs
                   | none => errs)

/-- The per-argument configuration resolution inlined in
`Guard.validate_arguments` (`guard.py` lines 65-70): when a hint exists
and is not optional, `required = True` is assigned (overwriting any
existing entry, keeping its position); when no `type` rule exists and a
hint exists, `type = hint` is appended. -/
def resolveConfig (cfg : ArgConfig) (hint : Option TypeHint) : ArgConfig :=
  let c1 :=
    match hint with
    | some h => if is_hint_optional h then cfg else assocSet cfg "required" (VBool true)
    | none => cfg
  match hint with
  | some h => if (assocGet c1 "type").isSome then c1 else assocSet c1 "type" (VType h)
  | none => c1

/-- The argument loop of `Guard.validate_arguments` (`guard.py` lines
61-73), with the in-place mutation of `guard_config` made explicit:
`guard_config.get(argument, {})` aliases the caller's per-argument dict
when the key is present (so the injected entries persist in it), and
builds a fresh unstored dict otherwise. Returns the accumulated
(argument, messages) pairs — only non-empty lists are stored, in bound
order — together with the post-loop state of `guard_config`. -/
def validateArgsLoop (reg : Registry) (hints : Hints) :
    Bound → GuardConfig → Except PyErr (List (String × List String) × GuardConfig)
  | [], cfg => .ok ([], cfg)
  | (argument, value) :: rest, cfg =>
      let present := assocGet cfg argument
      let argCfg := resolveConfig (present.getD []) (assocGet hints argument)
      let cfg2 := if present.isSome then assocSet cfg argument argCfg else cfg
      match validateArgumentLoop reg argument value argCfg with
      | .error e => .error e
      | .ok errs =>
          match validateArgsLoop reg hints rest cfg2 with
          | .error e => .error e
          | .ok (ms, cfgF) =>
              .ok ((if errs.isEmpty then ms else (argument, errs) :: ms), cfgF)

/-- Translation of `Guard.validate_arguments` (`guard.py` lines 55-76):
run the argument loop; if any argument accumulated messages, raise
`GuardValidationError` with the function name and the mapping, otherwise
return normally. The returned value is the post-call state of the
caller's `guard_config` object. -/
def validate_arguments (reg : Registry) (function_name : String) (bound : Bound)
    (hints : Hints) (guard_config : GuardConfig) : Except PyErr GuardConfig :=
  match validateArgsLoop reg hints bound guard_config with
  | .error e => .error e
  | .ok (errs, cfg') =>
      if errs.isEmpty then .ok cfg'
      else .error (.guardValidation function_name errs)

/-- The error list a given argument accumulates when processed against
the original (pre-mutation) configuration and hints: resolution followed
by the rule loop. -/
def argErrors (reg : Registry) (hints : Hints) (cfg : GuardConfig)
    (a : String) (v : PyVal) : Except PyErr (List String) :=
  validateArgumentLoop reg a v (resolveConfig ((assocGet cfg a).getD []) (assocGet hints a))

/-- The mapping `validate_arguments` accumulates: one entry per bound
argument whose error list is non-empty, in bound order. -/
def collectedErrors (reg : Registry) (hints : Hints) (cfg : GuardConfig)
    (bound : Bound) : List (String × List String) :=
  bound.filterMap (fun p =>
    match argErrors reg hints cfg p.1 p.2 with
    | .ok [] => none
    | .ok errs => some (p.1, errs)
    | .error _ => none)


/-- The outcome of a single rule of the `_validate_argument` loop, when
its evaluation does not raise: the failure message it contributes, if
any. -/
def ruleOutcome (reg : Registry) (argument : String) (value : PyVal)
    (r : String × PyVal) : Option String :=
  match ruleMsg reg argument value r.1 r.2 with
  | .ok (some m) => some m
  | _ => none

theorem assocGet_assocSet_self {α : Type} (d : List (String × α)) (k : String) (v : α) :
    assocGet (assocSet d k v) k = some v := by
  unfold assocSet assocGet
  by_cases hany : (d.any fun kv => kv.1 == k) = true
  case pos =>
    simp only [hany, if_true, List.find?_map]
    have hpf : ((fun kv : String × α => kv.1 == k) ∘ (fun kv => if kv.1 == k then (k, v) else kv))
        = fun kv => kv.1 == k := by
      funext kv
      by_cases hkv : kv.1 = k
      · simp [hkv]
      · simp [hkv]
    rw [hpf]
    rcases List.any_eq_true.mp hany with ⟨kv, hmem, hkv⟩
    cases hfind : d.find? (fun kv => kv.1 == k) with
    | none =>
        exact absurd hkv (by simpa using List.find?_eq_none.mp hfind kv hmem)
    | some kv' =>
        have hkv' := List.find?_some hfind
        simp only [] at hkv'
        have : kv'.1 = k := by simpa using hkv'
        simp [this]
  case neg =>
    have hany' : (d.any fun kv => kv.1 == k) = false := Bool.eq_false_iff.mpr hany
    have hnone : d.find? (fun kv => kv.1 == k) = none :=
      List.find?_eq_none.mpr (fun x hx hpx => by
        rw [List.any_eq_false] at hany'
        exact hany' x hx hpx)
    simp [hany', List.find?_append, hnone, List.find?]

theorem assocGet_assocSet_ne {α : Type} (d : List (String × α)) (k k' : String) (v : α)
    (h : k' ≠ k) : assocGet (assocSet d k v) k' = assocGet d k' := by
  have hbk : (k == k') = false := beq_eq_false_iff_ne.mpr (fun he => h he.symm)
  unfold assocSet assocGet
  by_cases hany : (d.any fun kv => kv.1 == k) = true
  case pos =>
    simp only [hany, if_true, List.find?_map]
    have hpf : ((fun kv : String × α => kv.1 == k') ∘ (fun kv => if kv.1 == k then (k, v) else kv))
        = fun kv => kv.1 == k' := by
      funext kv
      by_cases hkv : kv.1 = k
      · simp [hkv, hbk]
      · simp [hkv]
    rw [hpf]
    cases hfind : d.find? (fun kv => kv.1 == k') with
    | none => rfl
    | some kv =>
        have hkv := List.find?_some hfind
        simp only [] at hkv
        have hk' : kv.1 = k' := by simpa using hkv
        have hne : ¬ kv.1 = k := hk' ▸ h
        simp [hne]
  case neg =>
    have hany' : (d.any fun kv => kv.1 == k) = false := Bool.eq_false_iff.mpr hany
    simp [hany', List.find?_append, List.find?, hbk]

theorem validateArgsLoop_preserves_other (reg : Registry) (hints : Hints) (a : String) :
    ∀ (bound : Bound) (cfg : GuardConfig) (r : List (String × List String) × GuardConfig),
      (∀ p ∈ bound, p.1 ≠ a) →
      validateArgsLoop reg hints bound cfg = .ok r →
      assocGet r.2 a = assocGet cfg a := by
  intro bound
  induction bound with
  | nil =>
      intro cfg r _ h
      simp only [validateArgsLoop] at h
      cases h
      rfl
  | cons p rest ih =>
      intro cfg r hmem h
      obtain ⟨b, v⟩ := p
      simp only [validateArgsLoop] at h
      split at h
      · exact absurd h (by simp)
      · split at h
        · exact absurd h (by simp)
        · rename_i ms cfgF heq
          cases h
          have hb : b ≠ a := hmem (b, v) (List.mem_cons_self _ _)
          have hrest := ih _ _ (fun q hq => hmem q (List.mem_cons_of_mem _ hq)) heq
          rw [hrest]
          by_cases hp : (assocGet cfg b).isSome
      -- cfg2 is an assocSet at key b ≠ a, or cfg itself
          · simp only [hp, if_true]
            exact assocGet_assocSet_ne _ _ _ _ (fun he => hb he.symm)
          · simp [hp]

theorem argErrors_congr (reg : Registry) (hints : Hints) {cfg cfg' : GuardConfig}
    (a : String) (v : PyVal) (h : assocGet cfg' a = assocGet cfg a) :
    argErrors reg hints cfg' a v = argErrors reg hints cfg a v := by
  unfold argErrors
  rw [h]

theorem collectedErrors_congr (reg : Registry) (hints : Hints) {cfg cfg' : GuardConfig} :
    ∀ (bound : Bound),
      (∀ p ∈ bound, assocGet cfg' p.1 = assocGet cfg p.1) →
      collectedErrors reg hints cfg' bound = collectedErrors reg hints cfg bound := by
  intro bound
  induction bound with
  | nil => intro _; rfl
  | cons p rest ih =>
      intro hmem
      unfold collectedErrors
      simp only [List.filterMap_cons]
      rw [argErrors_congr reg hints p.1 p.2 (hmem p (List.mem_cons_self _ _))]
      have htail := ih (fun q hq => hmem q (List.mem_cons_of_mem _ hq))
      unfold collectedErrors at htail
      rw [htail]

theorem collectedErrors_values_nonempty (reg : Registry) (hints : Hints) (cfg : GuardConfig) :
    ∀ (bound : Bound) (q : String × List String),
      q ∈ collectedErrors reg hints cfg bound → q.2 ≠ [] := by
  intro bound
  induction bound with
  | nil => intro q hq; simp [collectedErrors] at hq
  | cons p rest ih =>
      intro q hq
      unfold collectedErrors at hq
      simp only [List.filterMap_cons] at hq
      rcases herr : argErrors reg hints cfg p.1 p.2 with e | errs
      · rw [herr] at hq
        exact ih q hq
      · rw [herr] at hq
        cases errs with
        | nil => exact ih q hq
        | cons m ms =>
            rcases List.mem_cons.mp hq with hhead | htail
            · subst hhead
              simp
            · exact ih q htail

theorem collectedErrors_keys (reg : Registry) (hints : Hints) (cfg : GuardConfig) :
    ∀ (bound : Bound),
      (collectedErrors reg hints cfg bound).map Prod.fst
        = (bound.filter fun p =>
            match argErrors reg hints cfg p.1 p.2 with
            | .ok [] => false
            | .ok _ => true
            | .error _ => false).map Prod.fst := by
  intro bound
  induction bound with
  | nil => rfl
  | cons p rest ih =>
      unfold collectedErrors
      simp only [List.filterMap_cons, List.filter_cons]
      rcases herr : argErrors reg hints cfg p.1 p.2 with e | errs
      · simpa [herr] using ih
      · cases errs with
        | nil => simpa [herr] using ih
        | cons m ms =>
            simp only [herr, List.map_cons]
            unfold collectedErrors at ih
            simp [ih]

theorem validateArgsLoop_collects (reg : Registry) (hints : Hints) :
    ∀ (bound : Bound) (cfg : GuardConfig),
      (bound.map Prod.fst).Nodup →
      (∀ p ∈ bound, ∃ l, argErrors reg hints cfg p.1 p.2 = .ok l) →
      ∃ cfgF, validateArgsLoop reg hints bound cfg
        = .ok (collectedErrors reg hints cfg bound, cfgF) := by
  intro bound
  induction bound with
  | nil =>
      intro cfg _ _
      exact ⟨cfg, rfl⟩
  | cons p rest ih =>
      intro cfg hnd hok
      obtain ⟨b, v⟩ := p
      obtain ⟨errs, herrs⟩ := hok (b, v) (List.mem_cons_self _ _)
      have hnd' : (rest.map Prod.fst).Nodup := (List.nodup_cons.mp hnd).2
      have hbn : b ∉ rest.map Prod.fst := (List.nodup_cons.mp hnd).1
      have hne : ∀ q ∈ rest, q.1 ≠ b := by
        intro q hq he
        exact hbn (he ▸ List.mem_map_of_mem Prod.fst hq)
      -- the mutated cfg2 agrees with cfg on every key still to be processed
      have hagree : ∀ q ∈ rest,
          assocGet (if (assocGet cfg b).isSome
                    then assocSet cfg b (resolveConfig ((assocGet cfg b).getD []) (assocGet hints b))
                    else cfg) q.1 = assocGet cfg q.1 := by
        intro q hq
        by_cases hp : (assocGet cfg b).isSome
        · simp only [hp, if_true]
          exact assocGet_assocSet_ne _ _ _ _ (hne q hq)
        · simp [hp]
      have hok' : ∀ q ∈ rest, ∃ l,
          argErrors reg hints
            (if (assocGet cfg b).isSome
             then assocSet cfg b (resolveConfig ((assocGet cfg b).getD []) (assocGet hints b))
             else cfg) q.1 q.2 = .ok l := by
        intro q hq
        rw [argErrors_congr reg hints q.1 q.2 (hagree q hq)]
        exact hok q (List.mem_cons_of_mem _ hq)
      obtain ⟨cfgF, hloop⟩ := ih _ hnd' hok'
      refine ⟨cfgF, ?_⟩
      have hcoll := collectedErrors_congr reg hints rest hagree
      simp only [validateArgsLoop]
      rw [show validateArgumentLoop reg b v
            (resolveConfig ((assocGet cfg b).getD []) (assocGet hints b)) = .ok errs from herrs]
      rw [hloop, hcoll]
      unfold collectedErrors
      simp only [List.filterMap_cons]
      rw [show argErrors reg hints cfg b v = .ok errs from herrs]
      cases errs with
      | nil => rfl
      | cons m ms => rfl

/-- C2 (amended). `Guard.validate_arguments` does not work on a fresh
copy: for every bound argument that has an entry in the caller-supplied
`guard_config`, that entry is replaced in place by the resolved
configuration (with the injected `required`/`type` rules), and it stays
that way after the call; entries of arguments not in `guard_config`, and
arguments not bound, are left untouched (the fresh `{}` default is never
stored back). Stated over the argument loop of `guard.py` lines 61-73,
whose final configuration state `validate_arguments` returns. -/
theorem validate_arguments_mutates_present_config
    (reg : Registry) (hints : Hints) :
    ∀ (bound : Bound) (cfg : GuardConfig) (errs : List (String × List String))
      (cfgF : GuardConfig) (a : String),
      (bound.map Prod.fst).Nodup →
      validateArgsLoop reg hints bound cfg = .ok (errs, cfgF) →
      assocGet cfgF a =
        if ((bound.any fun p => p.1 == a) && (assocGet cfg a).isSome) then
          some (resolveConfig ((assocGet cfg a).getD []) (assocGet hints a))
        else assocGet cfg a := by
  intro bound
  induction bound with
  | nil =>
      intro cfg errs cfgF a _ h
      simp only [validateArgsLoop] at h
      cases h
      simp
  | cons p rest ih =>
      intro cfg errs cfgF a hnd h
      obtain ⟨b, v⟩ := p
      have hnd' : (rest.map Prod.fst).Nodup := (List.nodup_cons.mp hnd).2
      have hbn : b ∉ rest.map Prod.fst := (List.nodup_cons.mp hnd).1
      simp only [validateArgsLoop] at h
      split at h
      · exact absurd h (by simp)
      · split at h
        · exact absurd h (by simp)
        · rename_i ms cfgF' heq
          cases h
          by_cases hab : b = a
          · subst hab
            have hne : ∀ q ∈ rest, q.1 ≠ b := by
              intro q hq he
              exact hbn (he ▸ List.mem_map_of_mem Prod.fst hq)
            have hpres := validateArgsLoop_preserves_other reg hints b rest _ _ hne heq
            rw [hpres]
            by_cases hp : (assocGet cfg b).isSome
            · simp only [hp, if_true]
              rw [assocGet_assocSet_self]
              simp [hp]
            · simp [hp]
          · have hcfg2 : assocGet (if (assocGet cfg b).isSome
                  then assocSet cfg b (resolveConfig ((assocGet cfg b).getD []) (assocGet hints b))
                  else cfg) a = assocGet cfg a := by
              by_cases hp : (assocGet cfg b).isSome
              · simp only [hp, if_true]
                exact assocGet_assocSet_ne _ _ _ _ (fun he => hab he.symm)
              · simp [hp]
            have := ih _ _ _ a hnd' heq
            rw [this, hcfg2]
            have hba : (b == a) = false := beq_eq_false_iff_ne.mpr hab
            simp only [List.any_cons, hba, Bool.false_or]

/-- C6. `validate_arguments` raises `GuardValidationError` iff at least
one bound argument accumulated at least one message, and returns normally
otherwise; the raised mapping has a key for exactly the invalid bound
arguments (in bound order) and every key maps to a non-empty message
list. Hypotheses: bound-argument names are distinct (guaranteed by
Python's argument binding) and no rule evaluation raises a raw fault (the
contract every validator is supposed to meet; see the regex construction
fault for the exception). -/
theorem validate_arguments_aggregation
    (reg : Registry) (fn : String) (bound : Bound) (hints : Hints) (cfg : GuardConfig)
    (hnd : (bound.map Prod.fst).Nodup)
    (hok : ∀ p ∈ bound, ∃ l, argErrors reg hints cfg p.1 p.2 = .ok l) :
    (collectedErrors reg hints cfg bound = [] →
       ∃ cfg', validate_arguments reg fn bound hints cfg = .ok cfg')
    ∧ (collectedErrors reg hints cfg bound ≠ [] →
       validate_arguments reg fn bound hints cfg
         = .error (.guardValidation fn (collectedErrors reg hints cfg bound)))
    ∧ (∀ q ∈ collectedErrors reg hints cfg bound, q.2 ≠ [])
    ∧ (collectedErrors reg hints cfg bound).map Prod.fst
        = (bound.filter fun p =>
            match argErrors reg hints cfg p.1 p.2 with
            | .ok [] => false
            | .ok _ => true
            | .error _ => false).map Prod.fst := by
  obtain ⟨cfgF, hloop⟩ := validateArgsLoop_collects reg hints bound cfg hnd hok
  refine ⟨?_, ?_, collectedErrors_values_nonempty reg hints cfg bound,
    collectedErrors_keys reg hints cfg bound⟩
  · intro hempty
    refine ⟨cfgF, ?_⟩
    unfold validate_arguments
    rw [hloop, hempty]
    rfl
  · intro hne
    unfold validate_arguments
    rw [hloop]
    have hfalse : (collectedErrors reg hints cfg bound).isEmpty = false := by
      cases hcc : collectedErrors reg hints cfg bound with
      | nil => exact absurd hcc hne
      | cons q qs => rfl
    simp [hfalse]

/-- C6 witness: a call with two simultaneously invalid arguments (`age`
fails `gte`, `name` fails the lower length bound) and one valid argument
(`email`) raises exactly the two-key mapping, with `email` absent. -/
theorem validate_arguments_aggregation_witness :
    validate_arguments defaultRegistry "signup"
        [("age", VInt 12), ("name", VStr "Jo"), ("email", VStr "a@b.co")] []
        [("age", [("gte", VInt 18)]), ("name", [("length", VTup [VInt 5, VInt 10])]),
         ("email", [("email", VBool true)])]
      = .error (.guardValidation "signup"
          [("age", ["age must be greater than or equal 18, got 12"]),
           ("name", ["name must be at least 5 characters long, got 2"])]) := by
  have h := validate_arguments_aggregation defaultRegistry "signup"
      [("age", VInt 12), ("name", VStr "Jo"), ("email", VStr "a@b.co")] []
      [("age", [("gte", VInt 18)]), ("name", [("length", VTup [VInt 5, VInt 10])]),
       ("email", [("email", VBool true)])]
      (by decide)
      (by
        intro p hp
        simp only [List.mem_cons, List.not_mem_nil, or_false] at hp
        rcases hp with rfl | rfl | rfl
        · exact ⟨_, rfl⟩
        · exact ⟨_, rfl⟩
        · exact ⟨_, rfl⟩)
  exact h.2.1 (by decide)

/-- C7. No short-circuiting within an argument: as long as no rule
evaluation raises a raw fault, `_validate_argument` evaluates every
configured rule and returns exactly the failing rules' messages, in
configuration order. -/
theorem validateArgument_no_short_circuit
    (reg : Registry) (argument : String) (value : PyVal) :
    ∀ (config : List (String × PyVal)),
      (∀ r ∈ config, ∃ o, ruleMsg reg argument value r.1 r.2 = .ok o) →
      validateArgumentLoop reg argument value config
        = .ok (config.filterMap (ruleOutcome reg argument value)) := by
  intro config
  induction config with
  | nil => intro _; rfl
  | cons r rest ih =>
      intro hok
      obtain ⟨o, ho⟩ := hok r (List.mem_cons_self _ _)
      have htail := ih (fun q hq => hok q (List.mem_cons_of_mem _ hq))
      obtain ⟨rule, expected⟩ := r
      simp only [validateArgumentLoop, List.filterMap_cons, ruleOutcome]
      rw [ho, htail]
      cases o <;> rfl

/-- C7 witness: with both `gte: 18` and `lte: 120` configured on `age`
and the value 150 failing only `lte`, the error list is exactly one
message naming the `lte` bound and none mentioning `gte`. -/
theorem validateArgument_no_short_circuit_witness :
    validateArgumentLoop defaultRegistry "age" (VInt 150)
        [("gte", VInt 18), ("lte", VInt 120)]
      = .ok ["age must be less than or equal 120, got 150"] := by
  have h := validateArgument_no_short_circuit defaultRegistry "age" (VInt 150)
      [("gte", VInt 18), ("lte", VInt 120)]
      (by
        intro r hr
        simp only [List.mem_cons, List.not_mem_nil, or_false] at hr
        rcases hr with rfl | rfl
        · exact ⟨_, rfl⟩
        · exact ⟨_, rfl⟩)
  exact h

/-- C8. Registering a keyword that is already present fails with
`GuardConfigurationException` before any assignment: the previously
registered class remains the one `get_validator` resolves. -/
theorem register_validator_collision
    (reg : Registry) (keyword : String) (v v' : ValidatorKind)
    (h : assocGet reg keyword = some v) :
    register_validator reg keyword v'
        = .error (.guardConfig (keyword ++ " is already registered"))
    ∧ get_validator reg keyword = .ok v := by
  constructor
  · unfold register_validator
    simp [h]
  · unfold get_validator
    rw [h]

/-- C8 witness: registering `"email"` a second time on the post-import
registry fails, and `"email"` still resolves to `EmailValidator`. -/
theorem register_validator_collision_witness :
    register_validator defaultRegistry "email" ValidatorKind.emailV
        = .error (.guardConfig "email is already registered")
    ∧ get_validator defaultRegistry "email" = .ok ValidatorKind.emailV :=
  register_validator_collision defaultRegistry "email"
    ValidatorKind.emailV ValidatorKind.emailV rfl

/-- C9. Boundary exactness of the bounds validators: a `length` rule with
bounds `(5, 10)` accepts exactly the sizes in `[5, 10]`; `gte: 18`
accepts exactly the values `≥ 18`; `lte: 100` accepts exactly the values
`≤ 100` and rejects every value strictly greater. -/
theorem bounds_validators_exact :
    (∀ (name : String) (v : PyVal) (n : Nat), pyLen v = some n →
       (LengthValidator.validate name (VTup [VInt 5, VInt 10]) v = .ok none
          ↔ 5 ≤ n ∧ n ≤ 10))
    ∧ (∀ (name : String) (m : Int),
       (GreaterThanOrEqual.validate name (VInt 18) (VInt m) = none ↔ 18 ≤ m))
    ∧ (∀ (name : String) (m : Int),
       (LessThanOrEqual.validate name (VInt 100) (VInt m) = none ↔ m ≤ 100)) := by
  refine ⟨?_, ?_, ?_⟩
  · intro name v n hlen
    unfold LengthValidator.validate
    simp only [hlen]
    unfold pyCmp pyNum?
    simp only []
    rcases lt_trichotomy (n : Int) 5 with h5 | h5 | h5
    · rw [compare_lt_iff_lt.mpr h5]
      constructor
      · intro hcontr
        simp at hcontr
      · intro ⟨h1, _⟩
        omega
    · rw [h5, compare_eq_iff_eq.mpr rfl]
      have h10 : ((5 : Int) < 10) := by omega
      rw [compare_lt_iff_lt.mpr (h5 ▸ h10)]
      constructor
      · intro _
        omega
      · intro _
        rfl
    · rw [compare_gt_iff_gt.mpr h5]
      rcases lt_trichotomy (n : Int) 10 with h10 | h10 | h10
      · rw [compare_lt_iff_lt.mpr h10]
        constructor
        · intro _
          omega
        · intro _
          rfl
      · rw [h10, compare_eq_iff_eq.mpr rfl]
        constructor
        · intro _
          omega
        · intro _
          rfl
      · rw [compare_gt_iff_gt.mpr h10]
        constructor
        · intro hcontr
          simp at hcontr
        · intro ⟨_, h2⟩
          omega
  · intro name m
    unfold GreaterThanOrEqual.validate pyCmp pyNum?
    simp only []
    rcases lt_trichotomy m 18 with h | h | h
    · rw [compare_lt_iff_lt.mpr h]
      constructor
      · intro hcontr
        simp at hcontr
      · intro hle
        omega
    · rw [h, compare_eq_iff_eq.mpr rfl]
      simp [h]
    · rw [compare_gt_iff_gt.mpr h]
      simp
      omega
  · intro name m
    unfold LessThanOrEqual.validate pyCmp pyNum?
    simp only []
    rcases lt_trichotomy m 100 with h | h | h
    · rw [compare_lt_iff_lt.mpr h]
      simp
      omega
    · rw [h, compare_eq_iff_eq.mpr rfl]
      simp
    · rw [compare_gt_iff_gt.mpr h]
      constructor
      · intro hcontr
        simp at hcontr
      · intro hle
        omega

/-- C9 witness: the boundary instances — size 5 (a 5-character string)
passes `length (5, 10)`, value 18 passes `gte: 18`, and value 101 is
rejected by `lte: 100` (the `↔` closes each at the stated side). -/
theorem bounds_validators_exact_witness :
    (LengthValidator.validate "name" (VTup [VInt 5, VInt 10]) (VStr "hello") = .ok none
       ↔ 5 ≤ 5 ∧ 5 ≤ 10)
    ∧ (GreaterThanOrEqual.validate "age" (VInt 18) (VInt 18) = none ↔ (18 : Int) ≤ 18)
    ∧ (LessThanOrEqual.validate "score" (VInt 100) (VInt 101) = none ↔ (101 : Int) ≤ 100) :=
  ⟨bounds_validators_exact.1 "name" (VStr "hello") 5 rfl,
   bounds_validators_exact.2.1 "age" 18,
   bounds_validators_exact.2.2 "score" 101⟩

/-- C10. The `type` rule with expected class `int` accepts every boolean
value: `TypeValidator.validate` is an `isinstance` check and `bool` is a
subclass of `int` in CPython (`test_edge_cases.py` line 217 asserts this
behaviour). -/
theorem type_validator_accepts_bool_as_int (name : String) (b : Bool) :
    TypeValidator.validate name (VType (.plain .intT)) (VBool b) = .ok none := by
  cases b <;> rfl

/-- C1. The engine never unpacks an `(expected, custom_message)` pair:
the whole tuple is handed to the validator as `expected`, so for the
claim's own scenario — `gte: (18, "must be an adult")` on `age` with
value 12 — the comparison `12 < (18, 'must be an adult')` raises
`TypeError`, which `GreaterThanOrEqual.validate` converts into the
not-comparable message. The raised mapping is therefore not the claimed
`\x7b"age": ["must be an adult"]\x7d` (the repository's own
`test_error_msg.py` expects the claimed mapping and fails). -/
theorem custom_message_not_substituted :
    validate_arguments defaultRegistry "register_user" [("age", VInt 12)] []
        [("age", [("gte", VTup [VInt 18, VStr "must be an adult"])])]
      = .error (.guardValidation "register_user"
          [("age", ["age is not comparable (expected numeric type), got int"])])
    ∧ ["age is not comparable (expected numeric type), got int"]
        ≠ ["must be an adult"] :=
  ⟨rfl, by decide⟩

/-- C4. `register_default_validators` populates exactly thirteen
keywords: the comparison, choices, type, required, keys, schema, length,
regex, email and url rules all resolve, but the seven string-extra
keywords (`startswith`, `endswith`, `contains`, `uuid`, `ip`,
`lowercase`, `uppercase`) are never registered, so resolving any of them
raises `GuardConfigurationException` — although the classes exist and the
repository's own `tests/validators/test_strings.py` uses these keywords. -/
theorem default_registry_missing_string_builtins :
    register_default_validators [] = .ok defaultRegistry
    ∧ get_validator defaultRegistry "lt" = .ok .lessThan
    ∧ get_validator defaultRegistry "lte" = .ok .lessThanOrEqual
    ∧ get_validator defaultRegistry "gt" = .ok .greaterThan
    ∧ get_validator defaultRegistry "gte" = .ok .greaterThanOrEqual
    ∧ get_validator defaultRegistry "choices" = .ok .choicesV
    ∧ get_validator defaultRegistry "type" = .ok .typeV
    ∧ get_validator defaultRegistry "required" = .ok .requiredV
    ∧ get_validator defaultRegistry "keys" = .ok .requiredKeyV
    ∧ get_validator defaultRegistry "schema" = .ok .schemaV
    ∧ get_validator defaultRegistry "length" = .ok .lengthV
    ∧ get_validator defaultRegistry "regex" = .ok .regexV
    ∧ get_validator defaultRegistry "email" = .ok .emailV
    ∧ get_validator defaultRegistry "url" = .ok .urlV
    ∧ get_validator defaultRegistry "startswith"
        = .error (.guardConfig "Validator startswith is not registered")
    ∧ get_validator defaultRegistry "endswith"
        = .error (.guardConfig "Validator endswith is not registered")
    ∧ get_validator defaultRegistry "contains"
        = .error (.guardConfig "Validator contains is not registered")
    ∧ get_validator defaultRegistry "uuid"
        = .error (.guardConfig "Validator uuid is not registered")
    ∧ get_validator defaultRegistry "ip"
        = .error (.guardConfig "Validator ip is not registered")
    ∧ get_validator defaultRegistry "lowercase"
        = .error (.guardConfig "Validator lowercase is not registered")
    ∧ get_validator defaultRegistry "uppercase"
        = .error (.guardConfig "Validator uppercase is not registered") :=
  ⟨rfl, rfl, rfl, rfl, rfl, rfl, rfl, rfl, rfl, rfl, rfl, rfl, rfl, rfl,
   rfl, rfl, rfl, rfl, rfl, rfl, rfl⟩

/-- C5. A malformed regex pattern does not become a validation message:
`re.compile` runs in `RegexValidator.__init__` (`validators/strings.py`
line 39), so the `re.error` it raises escapes the engine's rule loop as a
raw fault — the `except re.error` arm inside `validate` is unreachable.
The claim's scenario, pattern `"["` on value `"abc"`, ends in `re.error`,
not in a `GuardValidationError` carrying a message for the rule. -/
theorem malformed_regex_pattern_raises_raw :
    validate_arguments defaultRegistry "f" [("code", VStr "abc")] []
        [("code", [("regex", VStr "[")])]
      = .error (.reError "unterminated character set or unbalanced pattern: [")
    ∧ ∀ (fn : String) (errs : List (String × List String)),
        (PyErr.reError "unterminated character set or unbalanced pattern: [")
          ≠ .guardValidation fn errs := by
  constructor
  · rfl
  · intro fn errs h
    cases h

/-- C2 counterexample. The caller-supplied configuration object is not
unchanged after `validate_arguments`: for a call whose `age` entry starts
as the single rule `gte`, the entry observable after the (successful)
call has gained the injected `required` and `type` keys. -/
theorem guard_config_changed_by_call :
    (validate_arguments defaultRegistry "f" [("age", VInt 25)]
        [("age", TypeHint.plain PyType.intT)] [("age", [("gte", VInt 18)])]).map
        (fun c => c.map (fun e => (e.1, e.2.map Prod.fst)))
      = .ok [("age", ["gte", "required", "type"])]
    ∧ ["gte", "required", "type"] ≠ ["gte"] :=
  ⟨rfl, by decide⟩

/-- C2 witness: the mutation theorem applied to the counterexample call —
`age` is bound, has a config entry, so its entry after the loop is the
resolved configuration (with `required` and `type` appended). -/
theorem validate_arguments_mutates_present_config_witness :
    assocGet ([("age", [("gte", VInt 18), ("required", VBool true),
        ("type", VType (TypeHint.plain PyType.intT))])] : GuardConfig) "age"
      = if (([("age", VInt 25)] : Bound).any fun p => p.1 == "age")
            && (assocGet ([("age", [("gte", VInt 18)])] : GuardConfig) "age").isSome then
          some (resolveConfig
            ((assocGet ([("age", [("gte", VInt 18)])] : GuardConfig) "age").getD [])
            (assocGet ([("age", TypeHint.plain PyType.intT)] : Hints) "age"))
        else assocGet ([("age", [("gte", VInt 18)])] : GuardConfig) "age" :=
  validate_arguments_mutates_present_config defaultRegistry
    [("age", TypeHint.plain PyType.intT)] [("age", VInt 25)]
    [("age", [("gte", VInt 18)])] []
    [("age", [("gte", VInt 18), ("required", VBool true),
      ("type", VType (TypeHint.plain PyType.intT))])]
    "age" (by decide) rfl

/-- C3 counterexample. An explicitly supplied `required` value is not
kept: with a non-optional hint, the resolver overwrites `required: False`
with `required: True` (the claim says injection happens only when no
`required` rule is present). -/
theorem explicit_required_value_overwritten :
    resolveConfig [("required", VBool false)] (some (TypeHint.plain PyType.intT))
      = [("required", VBool true), ("type", VType (TypeHint.plain PyType.intT))]
    ∧ VBool true ≠ VBool false := by
  constructor
  · rfl
  · intro h
    exact Bool.noConfusion (PyVal.VBool.inj h)

/-- C3 (amended). When a type hint exists and is non-optional, the
resolver always sets `required = True`, overwriting any explicitly
supplied `required` value (the entry keeps its position). The claimed
consequences do hold: a parameter with a non-optional hint, no explicit
rules and value `None` fails (the `required` message, plus a `type`
message unless the hint is `NoneType` itself), while a parameter with an
optional (nullable) hint and no value passes — absence alone is not a
failure. -/
theorem required_injection_overwrites_and_consequences :
    (∀ (cfg : ArgConfig) (t : PyType),
       assocGet (resolveConfig cfg (some (TypeHint.plain t))) "required"
         = some (VBool true))
    ∧ (∀ (fn arg : String) (t : PyType),
       validate_arguments defaultRegistry fn [(arg, VNone)]
           [(arg, TypeHint.plain t)] []
         = .error (.guardValidation fn
             [(arg, (arg ++ " is required argument")
                :: (if t = PyType.noneT then []
                    else [arg ++ " must be of type " ++ strOf (VType (TypeHint.plain t))
                          ++ ", got " ++ typeName VNone]))]))
    ∧ (∀ (fn arg : String) (t : PyType),
       validate_arguments defaultRegistry fn [(arg, VNone)]
           [(arg, TypeHint.unionNone t)] [] = .ok []) := by
  refine ⟨?_, ?_, ?_⟩
  · intro cfg t
    have hre : resolveConfig cfg (some (TypeHint.plain t))
        = (if (assocGet (assocSet cfg "required" (VBool true)) "type").isSome
           then assocSet cfg "required" (VBool true)
           else assocSet (assocSet cfg "required" (VBool true)) "type"
                  (VType (TypeHint.plain t))) := rfl
    rw [hre]
    by_cases hty : (assocGet (assocSet cfg "required" (VBool true)) "type").isSome = true
    · rw [if_pos hty]
      exact assocGet_assocSet_self cfg "required" (VBool true)
    · rw [if_neg hty]
      rw [assocGet_assocSet_ne _ _ _ _ (by decide)]
      exact assocGet_assocSet_self cfg "required" (VBool true)
  · intro fn arg t
    cases t <;>
      simp [validate_arguments, validateArgsLoop, validateArgumentLoop, ruleMsg,
        get_validator, constructValidator, instValidate, resolveConfig, assocGet, assocSet,
        is_hint_optional, RequiredValidator.validate, TypeValidator.validate, isinst, isinstT,
        defaultRegistry, List.find?, strOf, reprOf, hintRepr, typeNameT, typeName]
  · intro fn arg t
    simp [validate_arguments, validateArgsLoop, validateArgumentLoop, ruleMsg,
      get_validator, constructValidator, instValidate, resolveConfig, assocGet, assocSet,
      is_hint_optional, TypeValidator.validate, isinst, isinstT,
      defaultRegistry, List.find?]
